import Mathlib

/-!
Verification of the Fog 2D rasterizer span model, dispatch table and pattern
context against their C++ sources.

Shallow embedding conventions:
* machine integers are `Nat`/`Int` with explicit `% 2^w` where the C code
  truncates (bitfield stores, `uint32_t` casts);
* pointers are pointer-sized unsigned values (`Nat`), `0` playing `NULL`;
* a `FOG_ASSERT` precondition is modelled by returning `Option`: `none` means
  the assertion fired (debug abort), `some` means the operation went through.
-/

namespace Fog

/-! ## Span type constants

The span-type enumeration lives in `Fog/G2d/Global/Constants.h`, which is not
part of the sources at hand; the numeric values below are those documented in
the `advanceData` tables of `Span_p.h` (entries `00 - SPAN_C` through
`05 - SPAN_ARGBXX_GLYPH`).  `SPAN_C` is the only constant-mask kind, so the
variant kinds begin right after it. -/

def SPAN_C : Nat := 0
def SPAN_A8_GLYPH : Nat := 1
def SPAN_AX_GLYPH : Nat := 2
def SPAN_AX_EXTRA : Nat := 3
def SPAN_ARGB32_GLYPH : Nat := 4
def SPAN_ARGBXX_GLYPH : Nat := 5
def SPAN_V_BEGIN : Nat := 1
def SPAN_COUNT : Nat := 6

/-- `(int)` cast of a `uint32_t` value: two's-complement reinterpretation. -/
def toInt32 (n : Nat) : Int :=
  if n < 2 ^ 31 then (n : Int) else (n : Int) - 2 ^ 32

/-- `uint32_t` subtraction `a - b` (wraparound modulo `2^32`); both arguments
are `uint32_t` values, i.e. already `< 2^32`. -/
def usub32 (a b : Nat) : Nat :=
  (a + 2 ^ 32 - b) % 2 ^ 32

/-! ## Fog::Span (Span_p.h)

State of the `Span` struct.  `_x0` is a 29-bit bitfield, `_type` a 3-bit
bitfield, `_x1` a full `uint32_t`; `_mask`/`_mask_uint` is one pointer-sized
union field holding either a variant-mask pointer or a small constant mask
value (`0` is `NULL`).  The `_next` link plays no role in the claims below and
is omitted. -/

structure Span where
  x0 : Nat
  type : Nat
  x1 : Nat
  mask : Nat
  deriving DecidableEq, Repr

/-- `Span::isValid`: `(_x0 < _x1) && (_mask != NULL)`. -/
def Span.isValid (s : Span) : Bool :=
  decide (s.x0 < s.x1) && decide (s.mask ≠ 0)

/-- `Span::getType`. -/
def Span.getType (s : Span) : Nat := s.type

/-- `Span::getX0`: `(int)_x0`. -/
def Span.getX0 (s : Span) : Int := toInt32 s.x0

/-- `Span::getX1`: `(int)_x1`. -/
def Span.getX1 (s : Span) : Int := toInt32 s.x1

/-- `Span::getLength`: `(int)(_x1 - _x0)` (unsigned 32-bit subtraction, then
a signed reinterpretation). -/
def Span.getLength (s : Span) : Int := toInt32 (usub32 s.x1 s.x0)

/-- `Span::setType`: asserts `type < SPAN_COUNT`, then stores into the 3-bit
`_type` bitfield. -/
def Span.setType (type : Nat) (s : Span) : Option Span :=
  if type < SPAN_COUNT then some { s with type := type % 2 ^ 3 } else none

/-- `Span::setX0`: asserts `x0 >= 0`, then `_x0 = (uint32_t)(uint)x0` stored
into the 29-bit `_x0` bitfield. -/
def Span.setX0 (x0 : Int) (s : Span) : Option Span :=
  if 0 ≤ x0 then some { s with x0 := x0.toNat % 2 ^ 29 } else none

/-- `Span::setX1`: asserts `x1 >= 0`, then `_x1 = (uint32_t)(uint)x1`. -/
def Span.setX1 (x1 : Int) (s : Span) : Option Span :=
  if 0 ≤ x1 then some { s with x1 := x1.toNat % 2 ^ 32 } else none

/-- `Span::setPosition`: asserts `x0 >= 0`, `x1 >= 0` and `x0 < x1`, then
stores both coordinates (bitfield truncation as in the member declarations). -/
def Span.setPosition (x0 x1 : Int) (s : Span) : Option Span :=
  if 0 ≤ x0 ∧ 0 ≤ x1 ∧ x0 < x1 then
    some { s with x0 := x0.toNat % 2 ^ 29, x1 := x1.toNat % 2 ^ 32 }
  else none

/-- `Span::setPositionAndType`: asserts `x0 >= 0`, `x1 >= 0` and `x0 < x1`,
then stores both coordinates and the type. -/
def Span.setPositionAndType (x0 x1 : Int) (type : Nat) (s : Span) : Option Span :=
  if 0 ≤ x0 ∧ 0 ≤ x1 ∧ x0 < x1 then
    some { s with x0 := x0.toNat % 2 ^ 29, x1 := x1.toNat % 2 ^ 32,
                  type := type % 2 ^ 3 }
  else none

/-- `Span::isConst`: `_type < SPAN_V_BEGIN`. -/
def Span.isConst (s : Span) : Bool := s.type < SPAN_V_BEGIN

/-- `Span::isVariant`: `_type >= SPAN_V_BEGIN`. -/
def Span.isVariant (s : Span) : Bool := SPAN_V_BEGIN ≤ s.type

/-- `Span::getVariantMask`: asserts `isVariant()`, returns the mask pointer. -/
def Span.getVariantMask (s : Span) : Option Nat :=
  if s.isVariant then some s.mask else none

/-- `Span::setVariantMask`: asserts `isVariant()`, stores the mask pointer. -/
def Span.setVariantMask (mask : Nat) (s : Span) : Option Span :=
  if s.isVariant then some { s with mask := mask } else none

/-! ## Fog::Span8 (Span_p.h)

`Span8` adds the const-mask accessors and the static helpers; it shares the
`Span` state. -/

namespace Span8

/-- `Span8::getConstMask`: asserts `isConst()`, returns `(uint32_t)_mask_uint`. -/
def getConstMask (s : Span) : Option Nat :=
  if s.isConst then some (s.mask % 2 ^ 32) else none

/-- `Span8::isConstMaskOpaque`: asserts `isConst()`, returns
`_mask_uint == 0x100`. -/
def isConstMaskOpaque (s : Span) : Option Bool :=
  if s.isConst then some (decide (s.mask = 0x100)) else none

/-- `Span8::setConstMask`: asserts `isConst()`, stores
`(sysuint_t)mask` where `mask` is a `uint32_t`. -/
def setConstMask (mask : Nat) (s : Span) : Option Span :=
  if s.isConst then some { s with mask := mask % 2 ^ 32 } else none

/-- `Span8::getMaskAdvance` lookup table (`advanceData`). -/
def advanceData : List Int := [0, 1, 1, 2, 4, 4, 0]

/-- `Span8::getMaskAdvance`: `width * advanceData[type]`. -/
def getMaskAdvance (type : Nat) (width : Int) : Int :=
  width * advanceData.getD type 0

/-- `Span8::isConstMaskPointer`: `(sysuint_t)mask <= 0x100`. -/
def isConstMaskPointer (mask : Nat) : Bool := mask ≤ 0x100

/-- `Span8::isVariantMaskPointer`: `(sysuint_t)mask > 0x100`. -/
def isVariantMaskPointer (mask : Nat) : Bool := 0x100 < mask

/-- `Span8::getConstMaskFromPointer`: `(uint32_t)(sysuint_t)mask`. -/
def getConstMaskFromPointer (mask : Nat) : Nat := mask % 2 ^ 32

/-- `Span8::getPointerFromConstMask`: `(uint8_t*)(void*)mask` with `mask` a
`uint32_t`; the zero-extension of the 32-bit value to pointer width. -/
def getPointerFromConstMask (mask : Nat) : Nat := mask % 2 ^ 32

end Span8

/-! ## Fog::Span16 (Span_p.h) -/

namespace Span16

/-- `Span16::getConstMask`: asserts `isConst()`, returns `(uint32_t)_mask_uint`. -/
def getConstMask (s : Span) : Option Nat :=
  if s.isConst then some (s.mask % 2 ^ 32) else none

/-- `Span16::isConstMaskOpaque`: asserts `isConst()`, returns
`_mask_uint == 0x10000`. -/
def isConstMaskOpaque (s : Span) : Option Bool :=
  if s.isConst then some (decide (s.mask = 0x10000)) else none

/-- `Span16::setConstMask`: asserts `isConst()`, stores `(sysuint_t)mask`. -/
def setConstMask (mask : Nat) (s : Span) : Option Span :=
  if s.isConst then some { s with mask := mask % 2 ^ 32 } else none

/-- `Span16::getMaskAdvance` lookup table (`advanceData`). -/
def advanceData : List Int := [0, 1, 2, 4, 4, 8, 0]

/-- `Span16::getMaskAdvance`: `width * advanceData[type]`. -/
def getMaskAdvance (type : Nat) (width : Int) : Int :=
  width * advanceData.getD type 0

end Span16

/-! ## Fog::RasterUtil dispatch table (trunk/Fog/Fog/Graphics/RasterUtil.h)

`RasterUtil.h` declares `FunctionMap::RasterFuncs` (three solid-source slots
and three variable-source slot families indexed by the source pixel format),
the table `raster[COMPOSITE_COUNT][PIXEL_FORMAT_COUNT]`, and the lookup
`getRasterOps(int format, int op)`. -/

namespace RasterUtil

/-- Modelled from the spec: `PIXEL_FORMAT_COUNT` is declared in
`Fog/Graphics/Constants.h`, which is not among the sources; only its
positivity matters to the claims, and a representative value is fixed here. -/
def PIXEL_FORMAT_COUNT : Nat := 5

/-- Modelled from the spec: `COMPOSITE_COUNT` is declared in
`Fog/Graphics/Constants.h`, which is not among the sources; only its
positivity matters to the claims, and a representative value is fixed here. -/
def COMPOSITE_COUNT : Nat := 21

/-- `FunctionMap::RasterFuncs`: the dispatch bundle for one
(composite operator, destination pixel format) pair.  Function pointers are
pointer-sized values (`0` is `NULL`); the `vspan*` members are arrays indexed
by the source pixel format. -/
structure RasterFuncs where
  cspan : Nat
  cspan_a8 : Nat
  cspan_a8_const : Nat
  vspan : Nat → Nat
  vspan_a8 : Nat → Nat
  vspan_a8_const : Nat → Nat

/-- All six slots of a bundle are non-null (array slots at every declared
source format). -/
def RasterFuncs.allNonNull (b : RasterFuncs) : Prop :=
  b.cspan ≠ 0 ∧ b.cspan_a8 ≠ 0 ∧ b.cspan_a8_const ≠ 0 ∧
  (∀ sf, sf < PIXEL_FORMAT_COUNT → b.vspan sf ≠ 0) ∧
  (∀ sf, sf < PIXEL_FORMAT_COUNT → b.vspan_a8 sf ≠ 0) ∧
  (∀ sf, sf < PIXEL_FORMAT_COUNT → b.vspan_a8_const sf ≠ 0)

instance (b : RasterFuncs) : Decidable b.allNonNull := by
  unfold RasterFuncs.allNonNull; infer_instance

/-- The `raster` table: `raster[op][format]`. -/
def RasterTable : Type := Nat → Nat → RasterFuncs

/-- One slot of a `RasterFuncs` bundle; the `vspan*` constructors carry the
source-format index into the array member. -/
inductive RasterSlot
  | cspan
  | cspan_a8
  | cspan_a8_const
  | vspan (sf : Nat)
  | vspan_a8 (sf : Nat)
  | vspan_a8_const (sf : Nat)

/-- Replace one slot of a bundle with the function pointer `fn`. -/
def RasterFuncs.setSlot (b : RasterFuncs) (slot : RasterSlot) (fn : Nat) : RasterFuncs :=
  match slot with
  | .cspan => { b with cspan := fn }
  | .cspan_a8 => { b with cspan_a8 := fn }
  | .cspan_a8_const => { b with cspan_a8_const := fn }
  | .vspan sf => { b with vspan := fun i => if i = sf then fn else b.vspan i }
  | .vspan_a8 sf => { b with vspan_a8 := fun i => if i = sf then fn else b.vspan_a8 i }
  | .vspan_a8_const sf =>
      { b with vspan_a8_const := fun i => if i = sf then fn else b.vspan_a8_const i }

/-- One capability-probe override: install function pointer `fn` into one slot
of the bundle for `(op, format)`. -/
structure RasterOverride where
  op : Nat
  format : Nat
  slot : RasterSlot
  fn : Nat

/-- Apply one override to the table. -/
def applyOverride (tbl : RasterTable) (o : RasterOverride) : RasterTable :=
  fun op format =>
    if op = o.op ∧ format = o.format then (tbl op format).setSlot o.slot o.fn
    else tbl op format

/-- Modelled from the spec: the startup initialization of the `raster` table
(implemented in the `RasterUtil_Init`-style translation units, which are not
among the sources).  Per the spec, every `(format, operator)` pair is first
populated with a portable baseline bundle, then a capability probe selectively
overrides individual entries with faster variants. -/
def initializedTable (baseline : RasterFuncs) (overrides : List RasterOverride) :
    RasterTable :=
  overrides.foldl applyOverride (fun _ _ => baseline)

/-- Modelled from the spec: `getRasterOps(format, op)` (declared in
`RasterUtil.h`, defined in a translation unit not among the sources) returns
the address of `functionMap->raster[op][format]` for every declared pair. -/
def getRasterOps (tbl : RasterTable) (format op : Nat) : Option RasterFuncs :=
  if format < PIXEL_FORMAT_COUNT ∧ op < COMPOSITE_COUNT then some (tbl op format)
  else none

/-! ## Fog::RasterUtil::PatternContext (trunk/Fog/Fog/Graphics/RasterUtil.h)

The struct holds an atomic `refCount` and a `destroy` function pointer; its
comment reads "you must call it if reference count was decreased to zero". -/

/-- State of a pattern context's lifetime: the reference count, the owned
resource (`some` = the ramp table / texture handle still allocated, `none` =
freed), and how many times `destroy` has run. -/
structure PatternContext where
  refCount : Nat
  ramp : Option Nat
  destroyCount : Nat
  deriving DecidableEq, Repr

/-- Modelled from the spec: `destroy` "fires ... releasing the ramp table /
texture handle" — it frees the owned resource.  The implementation is in
pattern translation units not among the sources. -/
def PatternContext.destroy (c : PatternContext) : PatternContext :=
  { c with ramp := none, destroyCount := c.destroyCount + 1 }

/-- Modelled from the spec: releasing one reference — atomically decrement
`refCount` and, exactly when it "was decreased to zero" (struct comment on
`destroy`), call `destroy`.  A release with the count already at zero is a
caller bug and is modelled as a no-op. -/
def PatternContext.release (c : PatternContext) : PatternContext :=
  if c.refCount = 0 then c
  else if c.refCount = 1 then ({ c with refCount := 0 } : PatternContext).destroy
  else { c with refCount := c.refCount - 1 }

/-- `k` successive releases. -/
def PatternContext.releaseN (k : Nat) (c : PatternContext) : PatternContext :=
  match k with
  | 0 => c
  | k + 1 => PatternContext.releaseN k c.release

end RasterUtil

end Fog

namespace Fog

/-! ## Claims about the span model -/

/-- C1: for every span type and every width `w`, `getMaskAdvance(type, w)`
equals `w` times a per-type byte constant (linear in width); it is `0` for the
constant kind `SPAN_C` at any width, and for `SPAN_AX_EXTRA` the per-pixel
constant is `2` in the 8-bit family (`Span8`) and `4` in the 16-bit family
(`Span16`). -/
theorem span_getMaskAdvance_linear (type : Nat) (h : type < SPAN_COUNT) :
    (∃ c8 c16 : Int,
      (∀ w : Int, Span8.getMaskAdvance type w = w * c8) ∧
      (∀ w : Int, Span16.getMaskAdvance type w = w * c16)) ∧
    (∀ w : Int, Span8.getMaskAdvance SPAN_C w = 0 ∧
                Span16.getMaskAdvance SPAN_C w = 0) ∧
    (∀ w : Int, Span8.getMaskAdvance SPAN_AX_EXTRA w = w * 2 ∧
                Span16.getMaskAdvance SPAN_AX_EXTRA w = w * 4) := by
  refine ⟨⟨Span8.advanceData.getD type 0, Span16.advanceData.getD type 0,
    fun w => rfl, fun w => rfl⟩, fun w => ⟨?_, ?_⟩, fun w => ⟨rfl, rfl⟩⟩ <;>
    simp [Span8.getMaskAdvance, Span16.getMaskAdvance,
      Span8.advanceData, Span16.advanceData, SPAN_C]

theorem span_getMaskAdvance_linear_witness :
    SPAN_AX_EXTRA < SPAN_COUNT ∧
    ((∃ c8 c16 : Int,
      (∀ w : Int, Span8.getMaskAdvance SPAN_AX_EXTRA w = w * c8) ∧
      (∀ w : Int, Span16.getMaskAdvance SPAN_AX_EXTRA w = w * c16)) ∧
    (∀ w : Int, Span8.getMaskAdvance SPAN_C w = 0 ∧
                Span16.getMaskAdvance SPAN_C w = 0) ∧
    (∀ w : Int, Span8.getMaskAdvance SPAN_AX_EXTRA w = w * 2 ∧
                Span16.getMaskAdvance SPAN_AX_EXTRA w = w * 4)) :=
  ⟨by decide, span_getMaskAdvance_linear SPAN_AX_EXTRA (by decide)⟩

/-- C4: for every span whose type is one accepted by `setType`
(`type < SPAN_COUNT`), exactly one of `isConst()` and `isVariant()` returns
`true`, and the two predicates split the type space at the single threshold
`SPAN_V_BEGIN`. -/
theorem span_const_variant_partition (s : Span) (h : s.type < SPAN_COUNT) :
    (s.isConst = !s.isVariant) ∧
    (s.isConst = true ↔ s.type < SPAN_V_BEGIN) ∧
    (s.isVariant = true ↔ SPAN_V_BEGIN ≤ s.type) := by
  simp only [Span.isConst, Span.isVariant]
  refine ⟨?_, by simp, by simp⟩
  rcases Nat.lt_or_ge s.type SPAN_V_BEGIN with hlt | hge
  · simp [hlt, Nat.not_le.mpr hlt]
  · simp [hge, Nat.not_lt.mpr hge]

theorem span_const_variant_partition_witness :
    (Span.mk 0 3 5 1).type < SPAN_COUNT ∧
    (((Span.mk 0 3 5 1).isConst = !(Span.mk 0 3 5 1).isVariant) ∧
    ((Span.mk 0 3 5 1).isConst = true ↔ (Span.mk 0 3 5 1).type < SPAN_V_BEGIN) ∧
    ((Span.mk 0 3 5 1).isVariant = true ↔ SPAN_V_BEGIN ≤ (Span.mk 0 3 5 1).type)) :=
  ⟨by decide, span_const_variant_partition (Span.mk 0 3 5 1) (by decide)⟩

/-- C5: for every span for which `isValid()` holds (`x0 < x1` and mask
non-null), `getLength()` equals `getX1() - getX0()` and is strictly positive.
The bound `s.x0 < 2^29` is structural (the `_x0` bitfield is 29 bits wide);
the bound `s.x1 < 2^31` holds for every span whose end was written through
`setX1`/`setPosition`, whose parameter is a non-negative `int`. -/
theorem span_valid_length (s : Span) (h0 : s.x0 < 2 ^ 29) (h1 : s.x1 < 2 ^ 31)
    (hv : s.isValid = true) :
    s.getLength = s.getX1 - s.getX0 ∧ 0 < s.getLength := by
  simp only [Span.isValid, Bool.and_eq_true, decide_eq_true_eq] at hv
  obtain ⟨hlt, -⟩ := hv
  have husub : usub32 s.x1 s.x0 = s.x1 - s.x0 := by
    unfold usub32
    have hrw : s.x1 + 2 ^ 32 - s.x0 = 2 ^ 32 + (s.x1 - s.x0) := by omega
    rw [hrw, Nat.add_mod_left, Nat.mod_eq_of_lt (by omega)]
  simp only [Span.getLength, Span.getX0, Span.getX1, husub, toInt32]
  rw [if_pos (by omega), if_pos (by omega), if_pos (by omega)]
  omega

theorem span_valid_length_witness :
    (Span.mk 2 0 7 1).x0 < 2 ^ 29 ∧ (Span.mk 2 0 7 1).x1 < 2 ^ 31 ∧
    (Span.mk 2 0 7 1).isValid = true ∧
    ((Span.mk 2 0 7 1).getLength =
        (Span.mk 2 0 7 1).getX1 - (Span.mk 2 0 7 1).getX0 ∧
      0 < (Span.mk 2 0 7 1).getLength) :=
  ⟨by decide, by decide, by decide,
    span_valid_length (Span.mk 2 0 7 1) (by decide) (by decide) (by decide)⟩

/-- C9: `_x0` is a 29-bit bitfield while `_x1` is a full 32-bit field.  For
`0 ≤ x0 < 2^29` the `setX0`/`getX0` round-trip is the identity; for
`x0 ≥ 2^29` no assertion fires (`setX0` asserts only `x0 >= 0`) but the
stored start wraps modulo `2^29`, so `getX0` no longer returns `x0`.  By
contrast `setX1` stores any non-negative 32-bit value unchanged. -/
theorem span_setX0_29bit (x0 : Int) (s : Span) (h : 0 ≤ x0) :
    (x0 < 2 ^ 29 →
      ∃ s', Span.setX0 x0 s = some s' ∧ s'.getX0 = x0) ∧
    (2 ^ 29 ≤ x0 →
      ∃ s', Span.setX0 x0 s = some s' ∧
        s'.x0 = x0.toNat % 2 ^ 29 ∧ s'.getX0 ≠ x0) ∧
    (∀ x1 : Int, 0 ≤ x1 → x1 < 2 ^ 32 →
      ∃ s', Span.setX1 x1 s = some s' ∧ (s'.x1 : Int) = x1) := by
  refine ⟨fun hlt => ⟨{ s with x0 := x0.toNat % 2 ^ 29 }, ?_, ?_⟩,
    fun hge => ⟨{ s with x0 := x0.toNat % 2 ^ 29 }, ?_, rfl, ?_⟩,
    fun x1 hx1 hx1u => ⟨{ s with x1 := x1.toNat % 2 ^ 32 }, ?_, ?_⟩⟩
  · simp [Span.setX0, h]
  · have hm : x0.toNat % 2 ^ 29 = x0.toNat := Nat.mod_eq_of_lt (by omega)
    simp only [Span.getX0, toInt32, hm]
    rw [if_pos (by omega)]
    omega
  · simp [Span.setX0, h]
  · have hm : x0.toNat % 2 ^ 29 < 2 ^ 29 := Nat.mod_lt _ (by omega)
    simp only [Span.getX0, toInt32]
    rw [if_pos (by omega)]
    omega
  · simp [Span.setX1, hx1]
  · have hm : x1.toNat % 2 ^ 32 = x1.toNat := Nat.mod_eq_of_lt (by omega)
    simp only [hm]
    omega

theorem span_setX0_29bit_witness :
    (0 : Int) ≤ 2 ^ 29 + 3 ∧
    ((2 ^ 29 + 3 : Int) < 2 ^ 29 →
      ∃ s', Span.setX0 (2 ^ 29 + 3) (Span.mk 0 0 5 1) = some s' ∧
        s'.getX0 = 2 ^ 29 + 3) ∧
    ((2 ^ 29 : Int) ≤ 2 ^ 29 + 3 →
      ∃ s', Span.setX0 (2 ^ 29 + 3) (Span.mk 0 0 5 1) = some s' ∧
        s'.x0 = (2 ^ 29 + 3 : Int).toNat % 2 ^ 29 ∧ s'.getX0 ≠ 2 ^ 29 + 3) ∧
    (∀ x1 : Int, 0 ≤ x1 → x1 < 2 ^ 32 →
      ∃ s', Span.setX1 x1 (Span.mk 0 0 5 1) = some s' ∧ (s'.x1 : Int) = x1) :=
  ⟨by decide, span_setX0_29bit (2 ^ 29 + 3) (Span.mk 0 0 5 1) (by decide)⟩

/-- C3, counterexample: `setX0` asserts only `x0 >= 0`, not `x0 < x1`, so
calling `setX0(10)` on the span `[0, 5)` succeeds (no assertion fires) and
yields a degenerate span with `x0 >= x1`. -/
theorem span_setX0_degenerate_counterexample :
    Span.setX0 10 (Span.mk 0 0 5 1) = some (Span.mk 10 0 5 1) ∧
    (Span.mk 10 0 5 1).getX1 ≤ (Span.mk 10 0 5 1).getX0 ∧
    (Span.mk 10 0 5 1).isValid = false := by
  refine ⟨?_, by decide, by decide⟩
  simp only [Span.setX0]
  rw [if_pos (by decide)]
  decide

/-- C3, amended: `setPosition` and `setPositionAndType` reject via debug
assertion any call with `x0 >= x1`; `setX0` and `setX1` assert only that
their argument is non-negative, irrespective of the other coordinate, so a
degenerate span with `x0 >= x1` can still be produced through them. -/
theorem span_position_assertions (x0 x1 : Int) (s : Span) (t : Nat) :
    (x1 ≤ x0 → Span.setPosition x0 x1 s = none ∧
      Span.setPositionAndType x0 x1 t s = none) ∧
    (0 ≤ x0 → (Span.setX0 x0 s).isSome = true) ∧
    (0 ≤ x1 → (Span.setX1 x1 s).isSome = true) := by
  refine ⟨fun hge => ⟨?_, ?_⟩, fun h0 => ?_, fun h1 => ?_⟩
  · simp only [Span.setPosition]
    rw [if_neg (by omega)]
  · simp only [Span.setPositionAndType]
    rw [if_neg (by omega)]
  · simp [Span.setX0, h0]
  · simp [Span.setX1, h1]

theorem span_position_assertions_witness :
    ((3 : Int) ≤ 7 → Span.setPosition 7 3 (Span.mk 0 0 5 1) = none ∧
      Span.setPositionAndType 7 3 2 (Span.mk 0 0 5 1) = none) ∧
    ((0 : Int) ≤ 7 → (Span.setX0 7 (Span.mk 0 0 5 1)).isSome = true) ∧
    ((0 : Int) ≤ 3 → (Span.setX1 3 (Span.mk 0 0 5 1)).isSome = true) :=
  span_position_assertions 7 3 (Span.mk 0 0 5 1) 2

/-- C6: the pointer-magnitude encoding of constant masks.  For every
pointer-sized value `p`, exactly one of `isConstMaskPointer(p)` and
`isVariantMaskPointer(p)` holds, with the boundary value `0x100` classified
as constant; and for every constant mask value `m <= 0x100`, converting it to
a pointer and back is the identity. -/
theorem span8_const_mask_pointer_encoding (p m : Nat) (hp : p < 2 ^ 64)
    (hm : m ≤ 0x100) :
    (Span8.isConstMaskPointer p = !Span8.isVariantMaskPointer p) ∧
    Span8.isConstMaskPointer 0x100 = true ∧
    Span8.getConstMaskFromPointer (Span8.getPointerFromConstMask m) = m := by
  refine ⟨?_, by decide, ?_⟩
  · simp only [Span8.isConstMaskPointer, Span8.isVariantMaskPointer]
    rcases Nat.lt_or_ge 0x100 p with hgt | hle
    · simp [hgt, Nat.not_le.mpr hgt]
    · simp [hle, Nat.not_lt.mpr hle]
  · simp only [Span8.getConstMaskFromPointer, Span8.getPointerFromConstMask]
    omega

theorem span8_const_mask_pointer_encoding_witness :
    (0x100 : Nat) < 2 ^ 64 ∧ (0x80 : Nat) ≤ 0x100 ∧
    ((Span8.isConstMaskPointer 0x100 = !Span8.isVariantMaskPointer 0x100) ∧
      Span8.isConstMaskPointer 0x100 = true ∧
      Span8.getConstMaskFromPointer (Span8.getPointerFromConstMask 0x80) = 0x80) :=
  ⟨by decide, by decide,
    span8_const_mask_pointer_encoding 0x100 0x80 (by decide) (by decide)⟩

/-- C7: calling a Constant-only mask accessor (`getConstMask`, `setConstMask`)
on a Variant span, or a Variant-only accessor (`getVariantMask`,
`setVariantMask`) on a Constant span, fires the debug assertion (result
`none`); when the span's kind matches the accessor, the assertion never fires
(result `some`). -/
theorem span_mask_accessor_assertions (s : Span) (mask : Nat) :
    (s.isVariant = true →
      Span8.getConstMask s = none ∧ Span8.setConstMask mask s = none ∧
      Span16.getConstMask s = none ∧ Span16.setConstMask mask s = none) ∧
    (s.isConst = true →
      s.getVariantMask = none ∧ s.setVariantMask mask = none) ∧
    (s.isConst = true →
      (Span8.getConstMask s).isSome = true ∧
      (Span8.setConstMask mask s).isSome = true ∧
      (Span16.getConstMask s).isSome = true ∧
      (Span16.setConstMask mask s).isSome = true) ∧
    (s.isVariant = true →
      s.getVariantMask.isSome = true ∧ (s.setVariantMask mask).isSome = true) := by
  have hcv : s.isConst = !s.isVariant := by
    simp only [Span.isConst, Span.isVariant]
    rcases Nat.lt_or_ge s.type SPAN_V_BEGIN with hlt | hge
    · simp [hlt, Nat.not_le.mpr hlt]
    · simp [hge, Nat.not_lt.mpr hge]
  refine ⟨fun hvar => ?_, fun hconst => ?_, fun hconst => ?_, fun hvar => ?_⟩
  · have hc : s.isConst = false := by rw [hcv, hvar]; rfl
    simp [Span8.getConstMask, Span8.setConstMask,
      Span16.getConstMask, Span16.setConstMask, hc]
  · have hv : s.isVariant = false := by
      cases hb : s.isVariant
      · rfl
      · rw [hcv, hb] at hconst; exact absurd hconst (by decide)
    simp [Span.getVariantMask, Span.setVariantMask, hv]
  · simp [Span8.getConstMask, Span8.setConstMask,
      Span16.getConstMask, Span16.setConstMask, hconst]
  · simp [Span.getVariantMask, Span.setVariantMask, hvar]

theorem span_mask_accessor_assertions_witness :
    (((Span.mk 0 2 5 4096).isVariant = true →
      Span8.getConstMask (Span.mk 0 2 5 4096) = none ∧
      Span8.setConstMask 7 (Span.mk 0 2 5 4096) = none ∧
      Span16.getConstMask (Span.mk 0 2 5 4096) = none ∧
      Span16.setConstMask 7 (Span.mk 0 2 5 4096) = none) ∧
    ((Span.mk 0 2 5 4096).isConst = true →
      (Span.mk 0 2 5 4096).getVariantMask = none ∧
      (Span.mk 0 2 5 4096).setVariantMask 7 = none) ∧
    ((Span.mk 0 2 5 4096).isConst = true →
      (Span8.getConstMask (Span.mk 0 2 5 4096)).isSome = true ∧
      (Span8.setConstMask 7 (Span.mk 0 2 5 4096)).isSome = true ∧
      (Span16.getConstMask (Span.mk 0 2 5 4096)).isSome = true ∧
      (Span16.setConstMask 7 (Span.mk 0 2 5 4096)).isSome = true) ∧
    ((Span.mk 0 2 5 4096).isVariant = true →
      (Span.mk 0 2 5 4096).getVariantMask.isSome = true ∧
      ((Span.mk 0 2 5 4096).setVariantMask 7).isSome = true)) :=
  span_mask_accessor_assertions (Span.mk 0 2 5 4096) 7

/-- C10: for every const-mask span, `isConstMaskOpaque()` returns `true`
exactly when the stored constant mask equals `0x100` in the 8-bit family
(`Span8`) and exactly when it equals `0x10000` in the 16-bit family
(`Span16`); the maximal byte values `255`/`65535` are not opaque. -/
theorem span_const_mask_opaque (s : Span) (h : s.isConst = true) :
    (Span8.isConstMaskOpaque s = some true ↔ s.mask = 0x100) ∧
    (Span16.isConstMaskOpaque s = some true ↔ s.mask = 0x10000) ∧
    Span8.isConstMaskOpaque { s with mask := 255 } = some false ∧
    Span16.isConstMaskOpaque { s with mask := 65535 } = some false := by
  have h' : Span.isConst { s with mask := 255 } = true := h
  have h'' : Span.isConst { s with mask := 65535 } = true := h
  refine ⟨?_, ?_, ?_, ?_⟩ <;>
    simp [Span8.isConstMaskOpaque, Span16.isConstMaskOpaque, h, h', h'']

theorem span_const_mask_opaque_witness :
    (Span.mk 0 0 5 0x100).isConst = true ∧
    (((Span8.isConstMaskOpaque (Span.mk 0 0 5 0x100) = some true ↔
        (Span.mk 0 0 5 0x100).mask = 0x100) ∧
      (Span16.isConstMaskOpaque (Span.mk 0 0 5 0x100) = some true ↔
        (Span.mk 0 0 5 0x100).mask = 0x10000) ∧
      Span8.isConstMaskOpaque { Span.mk 0 0 5 0x100 with mask := 255 } = some false ∧
      Span16.isConstMaskOpaque { Span.mk 0 0 5 0x100 with mask := 65535 } = some false)) :=
  ⟨by decide, span_const_mask_opaque (Span.mk 0 0 5 0x100) (by decide)⟩

/-! ## Claims about the dispatch table and the pattern context -/

namespace RasterUtil

lemma RasterFuncs.setSlot_allNonNull {b : RasterFuncs} (slot : RasterSlot)
    {fn : Nat} (hfn : fn ≠ 0) (hb : b.allNonNull) :
    (b.setSlot slot fn).allNonNull := by
  obtain ⟨h1, h2, h3, h4, h5, h6⟩ := hb
  cases slot with
  | cspan => exact ⟨hfn, h2, h3, h4, h5, h6⟩
  | cspan_a8 => exact ⟨h1, hfn, h3, h4, h5, h6⟩
  | cspan_a8_const => exact ⟨h1, h2, hfn, h4, h5, h6⟩
  | vspan sf =>
      refine ⟨h1, h2, h3, fun i hi => ?_, h5, h6⟩
      simp only [RasterFuncs.setSlot]
      split
      · exact hfn
      · exact h4 i hi
  | vspan_a8 sf =>
      refine ⟨h1, h2, h3, h4, fun i hi => ?_, h6⟩
      simp only [RasterFuncs.setSlot]
      split
      · exact hfn
      · exact h5 i hi
  | vspan_a8_const sf =>
      refine ⟨h1, h2, h3, h4, h5, fun i hi => ?_⟩
      simp only [RasterFuncs.setSlot]
      split
      · exact hfn
      · exact h6 i hi

lemma foldl_applyOverride_allNonNull (overrides : List RasterOverride) :
    ∀ tbl : RasterTable, (∀ op format, (tbl op format).allNonNull) →
      (∀ o ∈ overrides, o.fn ≠ 0) →
      ∀ op format, ((overrides.foldl applyOverride tbl) op format).allNonNull := by
  induction overrides with
  | nil => intro tbl htbl _ op format; exact htbl op format
  | cons o rest ih =>
      intro tbl htbl ho op format
      refine ih (applyOverride tbl o) (fun op' format' => ?_)
        (fun o' ho' => ho o' (List.mem_cons_of_mem _ ho')) op format
      simp only [applyOverride]
      split
      · exact RasterFuncs.setSlot_allNonNull o.slot
          (ho o (List.mem_cons_self _ _)) (htbl op' format')
      · exact htbl op' format'

/-- C2: after initialization (full baseline population followed by any
sequence of capability overrides installing non-null pointers),
`getRasterOps(format, op)` returns a bundle — never null — whose six slots
(`cspan`, `cspan_a8`, `cspan_a8_const`, `vspan`, `vspan_a8`,
`vspan_a8_const`) are all non-null, for every declared
(pixel format, composite operator) pair. -/
theorem getRasterOps_total_nonNull (baseline : RasterFuncs)
    (overrides : List RasterOverride) (hb : baseline.allNonNull)
    (ho : ∀ o ∈ overrides, o.fn ≠ 0) (format op : Nat)
    (hf : format < PIXEL_FORMAT_COUNT) (hop : op < COMPOSITE_COUNT) :
    ∃ b, getRasterOps (initializedTable baseline overrides) format op = some b ∧
      b.allNonNull := by
  refine ⟨initializedTable baseline overrides op format, ?_, ?_⟩
  · simp only [getRasterOps]
    rw [if_pos ⟨hf, hop⟩]
  · exact foldl_applyOverride_allNonNull overrides (fun _ _ => baseline)
      (fun _ _ => hb) ho op format

theorem getRasterOps_total_nonNull_witness :
    (RasterFuncs.mk 1 1 1 (fun _ => 1) (fun _ => 1) (fun _ => 1)).allNonNull ∧
    (∀ o ∈ [RasterOverride.mk 0 0 RasterSlot.cspan 2,
            RasterOverride.mk 1 2 (RasterSlot.vspan 3) 5], o.fn ≠ 0) ∧
    (∃ b, getRasterOps
        (initializedTable
          (RasterFuncs.mk 1 1 1 (fun _ => 1) (fun _ => 1) (fun _ => 1))
          [RasterOverride.mk 0 0 RasterSlot.cspan 2,
           RasterOverride.mk 1 2 (RasterSlot.vspan 3) 5]) 2 1 = some b ∧
      b.allNonNull) :=
  ⟨by decide, by decide,
    getRasterOps_total_nonNull
      (RasterFuncs.mk 1 1 1 (fun _ => 1) (fun _ => 1) (fun _ => 1))
      [RasterOverride.mk 0 0 RasterSlot.cspan 2,
       RasterOverride.mk 1 2 (RasterSlot.vspan 3) 5]
      (by decide) (by decide) 2 1 (by decide) (by decide)⟩

lemma releaseN_of_refCount_zero (k : Nat) :
    ∀ c : PatternContext, c.refCount = 0 → PatternContext.releaseN k c = c := by
  induction k with
  | zero => intro c _; rfl
  | succ k ih =>
      intro c hc
      show PatternContext.releaseN k c.release = c
      have hrel : c.release = c := by
        simp only [PatternContext.release, hc]
        rfl
      rw [hrel]
      exact ih c hc

lemma releaseN_spec (k : Nat) :
    ∀ (c : PatternContext) (n : Nat), c.refCount = n → c.destroyCount = 0 →
      1 ≤ n →
      (PatternContext.releaseN k c).destroyCount = (if n ≤ k then 1 else 0) ∧
      (PatternContext.releaseN k c).ramp = (if n ≤ k then none else c.ramp) ∧
      (PatternContext.releaseN k c).refCount = n - k := by
  induction k with
  | zero =>
      intro c n hc hd hn
      rw [if_neg (by omega), if_neg (by omega)]
      exact ⟨hd, rfl, hc⟩
  | succ k ih =>
      intro c n hc hd hn
      simp only [PatternContext.releaseN]
      rcases Nat.lt_or_ge 1 n with hgt | hle
      · have hrel : c.release = { c with refCount := n - 1 } := by
          simp only [PatternContext.release, hc]
          rw [if_neg (by omega), if_neg (by omega)]
        rw [hrel]
        obtain ⟨h1, h2, h3⟩ := ih { c with refCount := n - 1 } (n - 1) rfl hd
          (by omega)
        refine ⟨?_, ?_, ?_⟩
        · rw [h1]
          by_cases hnk : n ≤ k + 1
          · rw [if_pos (by omega), if_pos hnk]
          · rw [if_neg (by omega), if_neg hnk]
        · rw [h2]
          by_cases hnk : n ≤ k + 1
          · rw [if_pos (by omega), if_pos hnk]
          · rw [if_neg (by omega), if_neg hnk]
        · rw [h3]
          omega
      · have hn1 : n = 1 := by omega
        have hrel : c.release =
            PatternContext.mk 0 none (c.destroyCount + 1) := by
          simp only [PatternContext.release, hc, hn1]
          rfl
        rw [hrel, releaseN_of_refCount_zero k _ rfl, hd]
        rw [if_pos (by omega), if_pos (by omega)]
        refine ⟨rfl, rfl, ?_⟩
        show (0 : Nat) = n - (k + 1)
        omega

/-- C8: for every pattern context, `destroy` (which frees the owned ramp
table / texture handle) fires exactly once, at the reference count's
transition to zero: a release while the count is still greater than `1`
frees nothing, the count reaches zero after exactly `refCount` releases, at
which point the resources are freed and `destroy` has run exactly once, and
further releases never fire it again. -/
theorem patternContext_destroy_once (c : RasterUtil.PatternContext)
    (n k : Nat) (hc : c.refCount = n) (hd : c.destroyCount = 0) (hn : 1 ≤ n) :
    (1 < c.refCount →
      c.release.ramp = c.ramp ∧ c.release.destroyCount = 0) ∧
    (RasterUtil.PatternContext.releaseN k c).destroyCount
      = (if n ≤ k then 1 else 0) ∧
    (RasterUtil.PatternContext.releaseN k c).ramp
      = (if n ≤ k then none else c.ramp) := by
  obtain ⟨h1, h2, h3⟩ := RasterUtil.releaseN_spec k c n hc hd hn
  refine ⟨fun hgt => ?_, h1, h2⟩
  have hrel : c.release = { c with refCount := c.refCount - 1 } := by
    simp only [RasterUtil.PatternContext.release]
    rw [if_neg (by omega), if_neg (by omega)]
  rw [hrel]
  exact ⟨rfl, hd⟩

theorem patternContext_destroy_once_witness :
    (RasterUtil.PatternContext.mk 3 (some 7) 0).refCount = 3 ∧
    (RasterUtil.PatternContext.mk 3 (some 7) 0).destroyCount = 0 ∧ 1 ≤ 3 ∧
    ((1 < (RasterUtil.PatternContext.mk 3 (some 7) 0).refCount →
      (RasterUtil.PatternContext.mk 3 (some 7) 0).release.ramp
        = (RasterUtil.PatternContext.mk 3 (some 7) 0).ramp ∧
      (RasterUtil.PatternContext.mk 3 (some 7) 0).release.destroyCount = 0) ∧
    (RasterUtil.PatternContext.releaseN 5
        (RasterUtil.PatternContext.mk 3 (some 7) 0)).destroyCount
      = (if 3 ≤ 5 then 1 else 0) ∧
    (RasterUtil.PatternContext.releaseN 5
        (RasterUtil.PatternContext.mk 3 (some 7) 0)).ramp
      = (if 3 ≤ 5 then none else (RasterUtil.PatternContext.mk 3 (some 7) 0).ramp)) :=
  ⟨rfl, rfl, by decide,
    patternContext_destroy_once (RasterUtil.PatternContext.mk 3 (some 7) 0)
      3 5 rfl rfl (by decide)⟩

end RasterUtil

end Fog
